import Mathlib

/-!
Shallow embedding of the implementor hand-off scripts of this repository:
`src/implementors/std/error/trait.Error.js` and
`src/implementors/core/ops/trait.BitXor.js`.

Each file is an immediately-invoked function that builds an implementor
table — a JS object literal assigned one crate key at a time, each key
mapped to an array of pre-rendered HTML description strings — and then
runs the dispatch

    if (window.register_implementors) \x7b
        window.register_implementors(implementors);
    \x7d else \x7b
        window.pending_implementors = implementors;
    \x7d

The embedding models the two page globals `window.register_implementors`
and `window.pending_implementors` explicitly, the truthiness test of the
`if` condition, and the JS semantics of calling a value that may or may
not be a function (a TypeError is thrown on a truthy non-callable value).
-/

/-- An implementor table: the insertion-ordered mapping from crate name to
its array of implementor description strings, as the JS object literal
holds it (string keys of an object literal keep insertion order). -/
abbrev ImplTable := List (String × List String)

/-- JS values that can sit in the two page globals the scripts touch.
Functions are identified by an abstract id; numbers are modelled as
integers, which is enough for the truthiness distinctions the dispatch
makes. -/
inductive JSValue where
  | undef
  | null
  | boolean (b : Bool)
  | num (n : Int)
  | str (s : String)
  | fn (id : Nat)
  | table (t : ImplTable)
  deriving DecidableEq

/-- JS truthiness of a value, as tested by `if (window.register_implementors)`:
undefined, null, false, 0 and the empty string are falsy, everything else
modelled here is truthy. -/
def truthy : JSValue → Bool
  | JSValue.undef => false
  | JSValue.null => false
  | JSValue.boolean b => b
  | JSValue.num n => n != 0
  | JSValue.str s => s != ""
  | JSValue.fn _ => true
  | JSValue.table _ => true

/-- The state of the two page globals the scripts read or write. -/
structure Window where
  register_implementors : JSValue
  pending_implementors : JSValue
  deriving DecidableEq

/-- Observable effects of one run of the dispatch: a synchronous call into
the consumer's registration function with the table as sole argument, or a
store of the table into the pending slot. -/
inductive Effect where
  | call (f : Nat) (arg : ImplTable)
  | store (arg : ImplTable)
  deriving DecidableEq

/-- The only error JS can raise on this code path: calling a value that is
not a function. -/
inductive JSError where
  | typeError
  deriving DecidableEq

/-- Result of one run of the dispatch: the final state of the two globals,
the effects that occurred, and the exception thrown, if any. -/
structure RunResult where
  window : Window
  effects : List Effect
  thrown : Option JSError
  deriving DecidableEq

/-- JS call of a value with the table as sole argument: a function value
produces a call effect into the consumer; any other value throws a
TypeError and produces no effect. -/
def jsCall (f : JSValue) (arg : ImplTable) : List Effect × Option JSError :=
  match f with
  | JSValue.fn id => ([Effect.call id arg], none)
  | _ => ([], some JSError.typeError)

/-- The dispatch at the tail of both source files:
`if (window.register_implementors) \x7b window.register_implementors(implementors); \x7d
else \x7b window.pending_implementors = implementors; \x7d`. -/
def register_dispatch (w : Window) (implementors : ImplTable) : RunResult :=
  if truthy w.register_implementors then
    let r := jsCall w.register_implementors implementors
    { window := w, effects := r.1, thrown := r.2 }
  else
    { window := { w with pending_implementors := JSValue.table implementors },
      effects := [Effect.store implementors], thrown := none }

/-- JS object property assignment `implementors["k"] = v`: overwrite the
value of an existing key in place, or append a new key at the end. -/
def tableSet (t : ImplTable) (k : String) (v : List String) : ImplTable :=
  match t with
  | [] => [(k, v)]
  | (k0, v0) :: rest => if k0 = k then (k, v) :: rest else (k0, v0) :: tableSet rest k v

/-- Building the table from `var implementors = \x7b\x7d;` by executing the
assignment statements in source order. -/
def buildTable (assigns : List (String × List String)) : ImplTable :=
  assigns.foldl (fun t kv => tableSet t kv.1 kv.2) []

/-- JS object property read on the table. -/
def tableLookup (t : ImplTable) (k : String) : Option (List String) :=
  match t with
  | [] => none
  | (k0, v0) :: rest => if k0 = k then some v0 else tableLookup rest k

/-- The table an effect hands to the consumer. -/
def payloadOf : Effect → ImplTable
  | Effect.call _ t => t
  | Effect.store t => t

/-- Whether a run delivered the table by calling the registration function. -/
def deliveredTable (r : RunResult) : Bool :=
  r.effects.any (fun e => match e with | Effect.call _ _ => true | _ => false)

/-- Whether a run stored the table in the pending slot. -/
def storedTable (r : RunResult) : Bool :=
  r.effects.any (fun e => match e with | Effect.store _ => true | _ => false)
/-- The assignment sequence building the implementor table of
src/implementors/std/error/trait.Error.js, in source order. -/
def trait_Error_assignments : List (String × List String) := [
  ("itertools", []),
  ("libc", []),
  ("log", [
    "impl <a class=\"trait\" href=\"https://doc.rust-lang.org/nightly/std/error/trait.Error.html\" title=\"trait std::error::Error\">Error</a> for <a class=\"struct\" href=\"log/struct.SetLoggerError.html\" title=\"struct log::SetLoggerError\">SetLoggerError</a>",
    "impl <a class=\"trait\" href=\"https://doc.rust-lang.org/nightly/std/error/trait.Error.html\" title=\"trait std::error::Error\">Error</a> for <a class=\"struct\" href=\"log/struct.ShutdownLoggerError.html\" title=\"struct log::ShutdownLoggerError\">ShutdownLoggerError</a>"
  ]),
  ("ndarray", [
    "impl <a class=\"trait\" href=\"https://doc.rust-lang.org/nightly/std/error/trait.Error.html\" title=\"trait std::error::Error\">Error</a> for <a class=\"struct\" href=\"ndarray/struct.ShapeError.html\" title=\"struct ndarray::ShapeError\">ShapeError</a>"
  ]),
  ("slog", [
    "impl&lt;D&gt; <a class=\"trait\" href=\"https://doc.rust-lang.org/nightly/std/error/trait.Error.html\" title=\"trait std::error::Error\">Error</a> for <a class=\"enum\" href=\"slog/enum.MutexDrainError.html\" title=\"enum slog::MutexDrainError\">MutexDrainError</a>&lt;D&gt; <span class=\"where fmt-newline\">where<br>&nbsp;&nbsp;&nbsp;&nbsp;D: <a class=\"trait\" href=\"slog/trait.Drain.html\" title=\"trait slog::Drain\">Drain</a>,<br>&nbsp;&nbsp;&nbsp;&nbsp;D::<a class=\"trait\" href=\"slog/trait.Drain.html\" title=\"trait slog::Drain\">Err</a>: <a class=\"trait\" href=\"https://doc.rust-lang.org/nightly/core/fmt/trait.Debug.html\" title=\"trait core::fmt::Debug\">Debug</a> + <a class=\"trait\" href=\"https://doc.rust-lang.org/nightly/core/fmt/trait.Display.html\" title=\"trait core::fmt::Display\">Display</a> + <a class=\"trait\" href=\"https://doc.rust-lang.org/nightly/std/error/trait.Error.html\" title=\"trait std::error::Error\">Error</a>,&nbsp;</span>",
    "impl <a class=\"trait\" href=\"https://doc.rust-lang.org/nightly/std/error/trait.Error.html\" title=\"trait std::error::Error\">Error</a> for <a class=\"enum\" href=\"slog/enum.Error.html\" title=\"enum slog::Error\">Error</a>"
  ]),
  ("time", [
    "impl <a class=\"trait\" href=\"https://doc.rust-lang.org/nightly/std/error/trait.Error.html\" title=\"trait std::error::Error\">Error</a> for <a class=\"struct\" href=\"time/struct.OutOfRangeError.html\" title=\"struct time::OutOfRangeError\">OutOfRangeError</a>",
    "impl <a class=\"trait\" href=\"https://doc.rust-lang.org/nightly/std/error/trait.Error.html\" title=\"trait std::error::Error\">Error</a> for <a class=\"enum\" href=\"time/enum.ParseError.html\" title=\"enum time::ParseError\">ParseError</a>"
  ])
]

/-- The assignment sequence building the implementor table of
src/implementors/core/ops/trait.BitXor.js, in source order. -/
def trait_BitXor_assignments : List (String × List String) := [
  ("itertools", [
    "impl&lt;\x27a, \x27b, T, S&gt; <a class=\"trait\" href=\"https://doc.rust-lang.org/nightly/core/ops/trait.BitXor.html\" title=\"trait core::ops::BitXor\">BitXor</a>&lt;&amp;\x27b <a class=\"struct\" href=\"https://doc.rust-lang.org/nightly/std/collections/hash/set/struct.HashSet.html\" title=\"struct std::collections::hash::set::HashSet\">HashSet</a>&lt;T, S&gt;&gt; for &amp;\x27a <a class=\"struct\" href=\"https://doc.rust-lang.org/nightly/std/collections/hash/set/struct.HashSet.html\" title=\"struct std::collections::hash::set::HashSet\">HashSet</a>&lt;T, S&gt; <span class=\"where fmt-newline\">where<br>&nbsp;&nbsp;&nbsp;&nbsp;S: <a class=\"trait\" href=\"https://doc.rust-lang.org/nightly/core/hash/trait.BuildHasher.html\" title=\"trait core::hash::BuildHasher\">BuildHasher</a> + <a class=\"trait\" href=\"https://doc.rust-lang.org/nightly/core/default/trait.Default.html\" title=\"trait core::default::Default\">Default</a>,<br>&nbsp;&nbsp;&nbsp;&nbsp;T: <a class=\"trait\" href=\"https://doc.rust-lang.org/nightly/core/cmp/trait.Eq.html\" title=\"trait core::cmp::Eq\">Eq</a> + <a class=\"trait\" href=\"https://doc.rust-lang.org/nightly/core/hash/trait.Hash.html\" title=\"trait core::hash::Hash\">Hash</a> + <a class=\"trait\" href=\"https://doc.rust-lang.org/nightly/core/clone/trait.Clone.html\" title=\"trait core::clone::Clone\">Clone</a>,&nbsp;</span>",
    "impl&lt;\x27a, \x27b, T&gt; <a class=\"trait\" href=\"https://doc.rust-lang.org/nightly/core/ops/trait.BitXor.html\" title=\"trait core::ops::BitXor\">BitXor</a>&lt;&amp;\x27b <a class=\"struct\" href=\"https://doc.rust-lang.org/nightly/collections/btree/set/struct.BTreeSet.html\" title=\"struct collections::btree::set::BTreeSet\">BTreeSet</a>&lt;T&gt;&gt; for &amp;\x27a <a class=\"struct\" href=\"https://doc.rust-lang.org/nightly/collections/btree/set/struct.BTreeSet.html\" title=\"struct collections::btree::set::BTreeSet\">BTreeSet</a>&lt;T&gt; <span class=\"where fmt-newline\">where<br>&nbsp;&nbsp;&nbsp;&nbsp;T: <a class=\"trait\" href=\"https://doc.rust-lang.org/nightly/core/cmp/trait.Ord.html\" title=\"trait core::cmp::Ord\">Ord</a> + <a class=\"trait\" href=\"https://doc.rust-lang.org/nightly/core/clone/trait.Clone.html\" title=\"trait core::clone::Clone\">Clone</a>,&nbsp;</span>"
  ]),
  ("libc", [
    "impl&lt;\x27a, \x27b, T, S&gt; <a class=\"trait\" href=\"https://doc.rust-lang.org/nightly/core/ops/trait.BitXor.html\" title=\"trait core::ops::BitXor\">BitXor</a>&lt;&amp;\x27b <a class=\"struct\" href=\"https://doc.rust-lang.org/nightly/std/collections/hash/set/struct.HashSet.html\" title=\"struct std::collections::hash::set::HashSet\">HashSet</a>&lt;T, S&gt;&gt; for &amp;\x27a <a class=\"struct\" href=\"https://doc.rust-lang.org/nightly/std/collections/hash/set/struct.HashSet.html\" title=\"struct std::collections::hash::set::HashSet\">HashSet</a>&lt;T, S&gt; <span class=\"where fmt-newline\">where<br>&nbsp;&nbsp;&nbsp;&nbsp;S: <a class=\"trait\" href=\"https://doc.rust-lang.org/nightly/core/hash/trait.BuildHasher.html\" title=\"trait core::hash::BuildHasher\">BuildHasher</a> + <a class=\"trait\" href=\"https://doc.rust-lang.org/nightly/core/default/trait.Default.html\" title=\"trait core::default::Default\">Default</a>,<br>&nbsp;&nbsp;&nbsp;&nbsp;T: <a class=\"trait\" href=\"https://doc.rust-lang.org/nightly/core/cmp/trait.Eq.html\" title=\"trait core::cmp::Eq\">Eq</a> + <a class=\"trait\" href=\"https://doc.rust-lang.org/nightly/core/hash/trait.Hash.html\" title=\"trait core::hash::Hash\">Hash</a> + <a class=\"trait\" href=\"https://doc.rust-lang.org/nightly/core/clone/trait.Clone.html\" title=\"trait core::clone::Clone\">Clone</a>,&nbsp;</span>",
    "impl&lt;\x27a, \x27b, T&gt; <a class=\"trait\" href=\"https://doc.rust-lang.org/nightly/core/ops/trait.BitXor.html\" title=\"trait core::ops::BitXor\">BitXor</a>&lt;&amp;\x27b <a class=\"struct\" href=\"https://doc.rust-lang.org/nightly/collections/btree/set/struct.BTreeSet.html\" title=\"struct collections::btree::set::BTreeSet\">BTreeSet</a>&lt;T&gt;&gt; for &amp;\x27a <a class=\"struct\" href=\"https://doc.rust-lang.org/nightly/collections/btree/set/struct.BTreeSet.html\" title=\"struct collections::btree::set::BTreeSet\">BTreeSet</a>&lt;T&gt; <span class=\"where fmt-newline\">where<br>&nbsp;&nbsp;&nbsp;&nbsp;T: <a class=\"trait\" href=\"https://doc.rust-lang.org/nightly/core/cmp/trait.Ord.html\" title=\"trait core::cmp::Ord\">Ord</a> + <a class=\"trait\" href=\"https://doc.rust-lang.org/nightly/core/clone/trait.Clone.html\" title=\"trait core::clone::Clone\">Clone</a>,&nbsp;</span>"
  ]),
  ("ndarray", [
    "impl&lt;A, S, S2, D, E&gt; <a class=\"trait\" href=\"https://doc.rust-lang.org/nightly/core/ops/trait.BitXor.html\" title=\"trait core::ops::BitXor\">BitXor</a>&lt;<a class=\"struct\" href=\"ndarray/struct.ArrayBase.html\" title=\"struct ndarray::ArrayBase\">ArrayBase</a>&lt;S2, E&gt;&gt; for <a class=\"struct\" href=\"ndarray/struct.ArrayBase.html\" title=\"struct ndarray::ArrayBase\">ArrayBase</a>&lt;S, D&gt; <span class=\"where fmt-newline\">where<br>&nbsp;&nbsp;&nbsp;&nbsp;A: <a class=\"trait\" href=\"https://doc.rust-lang.org/nightly/core/clone/trait.Clone.html\" title=\"trait core::clone::Clone\">Clone</a> + <a class=\"trait\" href=\"https://doc.rust-lang.org/nightly/core/ops/trait.BitXor.html\" title=\"trait core::ops::BitXor\">BitXor</a>&lt;A, Output = A&gt;,<br>&nbsp;&nbsp;&nbsp;&nbsp;S: <a class=\"trait\" href=\"ndarray/trait.DataOwned.html\" title=\"trait ndarray::DataOwned\">DataOwned</a>&lt;Elem = A&gt; + <a class=\"trait\" href=\"ndarray/trait.DataMut.html\" title=\"trait ndarray::DataMut\">DataMut</a>,<br>&nbsp;&nbsp;&nbsp;&nbsp;S2: <a class=\"trait\" href=\"ndarray/trait.Data.html\" title=\"trait ndarray::Data\">Data</a>&lt;Elem = A&gt;,<br>&nbsp;&nbsp;&nbsp;&nbsp;D: <a class=\"trait\" href=\"ndarray/trait.Dimension.html\" title=\"trait ndarray::Dimension\">Dimension</a>,<br>&nbsp;&nbsp;&nbsp;&nbsp;E: <a class=\"trait\" href=\"ndarray/trait.Dimension.html\" title=\"trait ndarray::Dimension\">Dimension</a>,&nbsp;</span>",
    "impl&lt;\x27a, A, S, S2, D, E&gt; <a class=\"trait\" href=\"https://doc.rust-lang.org/nightly/core/ops/trait.BitXor.html\" title=\"trait core::ops::BitXor\">BitXor</a>&lt;&amp;\x27a <a class=\"struct\" href=\"ndarray/struct.ArrayBase.html\" title=\"struct ndarray::ArrayBase\">ArrayBase</a>&lt;S2, E&gt;&gt; for <a class=\"struct\" href=\"ndarray/struct.ArrayBase.html\" title=\"struct ndarray::ArrayBase\">ArrayBase</a>&lt;S, D&gt; <span class=\"where fmt-newline\">where<br>&nbsp;&nbsp;&nbsp;&nbsp;A: <a class=\"trait\" href=\"https://doc.rust-lang.org/nightly/core/clone/trait.Clone.html\" title=\"trait core::clone::Clone\">Clone</a> + <a class=\"trait\" href=\"https://doc.rust-lang.org/nightly/core/ops/trait.BitXor.html\" title=\"trait core::ops::BitXor\">BitXor</a>&lt;A, Output = A&gt;,<br>&nbsp;&nbsp;&nbsp;&nbsp;S: <a class=\"trait\" href=\"ndarray/trait.DataMut.html\" title=\"trait ndarray::DataMut\">DataMut</a>&lt;Elem = A&gt;,<br>&nbsp;&nbsp;&nbsp;&nbsp;S2: <a class=\"trait\" href=\"ndarray/trait.Data.html\" title=\"trait ndarray::Data\">Data</a>&lt;Elem = A&gt;,<br>&nbsp;&nbsp;&nbsp;&nbsp;D: <a class=\"trait\" href=\"ndarray/trait.Dimension.html\" title=\"trait ndarray::Dimension\">Dimension</a>,<br>&nbsp;&nbsp;&nbsp;&nbsp;E: <a class=\"trait\" href=\"ndarray/trait.Dimension.html\" title=\"trait ndarray::Dimension\">Dimension</a>,&nbsp;</span>",
    "impl&lt;\x27a, \x27b, A, S, S2, D, E&gt; <a class=\"trait\" href=\"https://doc.rust-lang.org/nightly/core/ops/trait.BitXor.html\" title=\"trait core::ops::BitXor\">BitXor</a>&lt;&amp;\x27a <a class=\"struct\" href=\"ndarray/struct.ArrayBase.html\" title=\"struct ndarray::ArrayBase\">ArrayBase</a>&lt;S2, E&gt;&gt; for &amp;\x27b <a class=\"struct\" href=\"ndarray/struct.ArrayBase.html\" title=\"struct ndarray::ArrayBase\">ArrayBase</a>&lt;S, D&gt; <span class=\"where fmt-newline\">where<br>&nbsp;&nbsp;&nbsp;&nbsp;A: <a class=\"trait\" href=\"https://doc.rust-lang.org/nightly/core/clone/trait.Clone.html\" title=\"trait core::clone::Clone\">Clone</a> + <a class=\"trait\" href=\"https://doc.rust-lang.org/nightly/core/ops/trait.BitXor.html\" title=\"trait core::ops::BitXor\">BitXor</a>&lt;A, Output = A&gt;,<br>&nbsp;&nbsp;&nbsp;&nbsp;S: <a class=\"trait\" href=\"ndarray/trait.Data.html\" title=\"trait ndarray::Data\">Data</a>&lt;Elem = A&gt;,<br>&nbsp;&nbsp;&nbsp;&nbsp;S2: <a class=\"trait\" href=\"ndarray/trait.Data.html\" title=\"trait ndarray::Data\">Data</a>&lt;Elem = A&gt;,<br>&nbsp;&nbsp;&nbsp;&nbsp;D: <a class=\"trait\" href=\"ndarray/trait.Dimension.html\" title=\"trait ndarray::Dimension\">Dimension</a>,<br>&nbsp;&nbsp;&nbsp;&nbsp;E: <a class=\"trait\" href=\"ndarray/trait.Dimension.html\" title=\"trait ndarray::Dimension\">Dimension</a>,&nbsp;</span>",
    "impl&lt;A, S, D, B&gt; <a class=\"trait\" href=\"https://doc.rust-lang.org/nightly/core/ops/trait.BitXor.html\" title=\"trait core::ops::BitXor\">BitXor</a>&lt;B&gt; for <a class=\"struct\" href=\"ndarray/struct.ArrayBase.html\" title=\"struct ndarray::ArrayBase\">ArrayBase</a>&lt;S, D&gt; <span class=\"where fmt-newline\">where<br>&nbsp;&nbsp;&nbsp;&nbsp;A: <a class=\"trait\" href=\"https://doc.rust-lang.org/nightly/core/clone/trait.Clone.html\" title=\"trait core::clone::Clone\">Clone</a> + <a class=\"trait\" href=\"https://doc.rust-lang.org/nightly/core/ops/trait.BitXor.html\" title=\"trait core::ops::BitXor\">BitXor</a>&lt;B, Output = A&gt;,<br>&nbsp;&nbsp;&nbsp;&nbsp;S: <a class=\"trait\" href=\"ndarray/trait.DataOwned.html\" title=\"trait ndarray::DataOwned\">DataOwned</a>&lt;Elem = A&gt; + <a class=\"trait\" href=\"ndarray/trait.DataMut.html\" title=\"trait ndarray::DataMut\">DataMut</a>,<br>&nbsp;&nbsp;&nbsp;&nbsp;D: <a class=\"trait\" href=\"ndarray/trait.Dimension.html\" title=\"trait ndarray::Dimension\">Dimension</a>,<br>&nbsp;&nbsp;&nbsp;&nbsp;B: <a class=\"trait\" href=\"ndarray/trait.ScalarOperand.html\" title=\"trait ndarray::ScalarOperand\">ScalarOperand</a>,&nbsp;</span>",
    "impl&lt;\x27a, A, S, D, B&gt; <a class=\"trait\" href=\"https://doc.rust-lang.org/nightly/core/ops/trait.BitXor.html\" title=\"trait core::ops::BitXor\">BitXor</a>&lt;B&gt; for &amp;\x27a <a class=\"struct\" href=\"ndarray/struct.ArrayBase.html\" title=\"struct ndarray::ArrayBase\">ArrayBase</a>&lt;S, D&gt; <span class=\"where fmt-newline\">where<br>&nbsp;&nbsp;&nbsp;&nbsp;A: <a class=\"trait\" href=\"https://doc.rust-lang.org/nightly/core/clone/trait.Clone.html\" title=\"trait core::clone::Clone\">Clone</a> + <a class=\"trait\" href=\"https://doc.rust-lang.org/nightly/core/ops/trait.BitXor.html\" title=\"trait core::ops::BitXor\">BitXor</a>&lt;B, Output = A&gt;,<br>&nbsp;&nbsp;&nbsp;&nbsp;S: <a class=\"trait\" href=\"ndarray/trait.Data.html\" title=\"trait ndarray::Data\">Data</a>&lt;Elem = A&gt;,<br>&nbsp;&nbsp;&nbsp;&nbsp;D: <a class=\"trait\" href=\"ndarray/trait.Dimension.html\" title=\"trait ndarray::Dimension\">Dimension</a>,<br>&nbsp;&nbsp;&nbsp;&nbsp;B: <a class=\"trait\" href=\"ndarray/trait.ScalarOperand.html\" title=\"trait ndarray::ScalarOperand\">ScalarOperand</a>,&nbsp;</span>",
    "impl&lt;S, D&gt; <a class=\"trait\" href=\"https://doc.rust-lang.org/nightly/core/ops/trait.BitXor.html\" title=\"trait core::ops::BitXor\">BitXor</a>&lt;<a class=\"struct\" href=\"ndarray/struct.ArrayBase.html\" title=\"struct ndarray::ArrayBase\">ArrayBase</a>&lt;S, D&gt;&gt; for <a class=\"primitive\" href=\"https://doc.rust-lang.org/nightly/std/primitive.i8.html\">i8</a> <span class=\"where fmt-newline\">where<br>&nbsp;&nbsp;&nbsp;&nbsp;S: <a class=\"trait\" href=\"ndarray/trait.DataOwned.html\" title=\"trait ndarray::DataOwned\">DataOwned</a>&lt;Elem = <a class=\"primitive\" href=\"https://doc.rust-lang.org/nightly/std/primitive.i8.html\">i8</a>&gt; + <a class=\"trait\" href=\"ndarray/trait.DataMut.html\" title=\"trait ndarray::DataMut\">DataMut</a>,<br>&nbsp;&nbsp;&nbsp;&nbsp;D: <a class=\"trait\" href=\"ndarray/trait.Dimension.html\" title=\"trait ndarray::Dimension\">Dimension</a>,&nbsp;</span>",
    "impl&lt;\x27a, S, D&gt; <a class=\"trait\" href=\"https://doc.rust-lang.org/nightly/core/ops/trait.BitXor.html\" title=\"trait core::ops::BitXor\">BitXor</a>&lt;&amp;\x27a <a class=\"struct\" href=\"ndarray/struct.ArrayBase.html\" title=\"struct ndarray::ArrayBase\">ArrayBase</a>&lt;S, D&gt;&gt; for <a class=\"primitive\" href=\"https://doc.rust-lang.org/nightly/std/primitive.i8.html\">i8</a> <span class=\"where fmt-newline\">where<br>&nbsp;&nbsp;&nbsp;&nbsp;S: <a class=\"trait\" href=\"ndarray/trait.Data.html\" title=\"trait ndarray::Data\">Data</a>&lt;Elem = <a class=\"primitive\" href=\"https://doc.rust-lang.org/nightly/std/primitive.i8.html\">i8</a>&gt;,<br>&nbsp;&nbsp;&nbsp;&nbsp;D: <a class=\"trait\" href=\"ndarray/trait.Dimension.html\" title=\"trait ndarray::Dimension\">Dimension</a>,&nbsp;</span>",
    "impl&lt;S, D&gt; <a class=\"trait\" href=\"https://doc.rust-lang.org/nightly/core/ops/trait.BitXor.html\" title=\"trait core::ops::BitXor\">BitXor</a>&lt;<a class=\"struct\" href=\"ndarray/struct.ArrayBase.html\" title=\"struct ndarray::ArrayBase\">ArrayBase</a>&lt;S, D&gt;&gt; for <a class=\"primitive\" href=\"https://doc.rust-lang.org/nightly/std/primitive.u8.html\">u8</a> <span class=\"where fmt-newline\">where<br>&nbsp;&nbsp;&nbsp;&nbsp;S: <a class=\"trait\" href=\"ndarray/trait.DataOwned.html\" title=\"trait ndarray::DataOwned\">DataOwned</a>&lt;Elem = <a class=\"primitive\" href=\"https://doc.rust-lang.org/nightly/std/primitive.u8.html\">u8</a>&gt; + <a class=\"trait\" href=\"ndarray/trait.DataMut.html\" title=\"trait ndarray::DataMut\">DataMut</a>,<br>&nbsp;&nbsp;&nbsp;&nbsp;D: <a class=\"trait\" href=\"ndarray/trait.Dimension.html\" title=\"trait ndarray::Dimension\">Dimension</a>,&nbsp;</span>",
    "impl&lt;\x27a, S, D&gt; <a class=\"trait\" href=\"https://doc.rust-lang.org/nightly/core/ops/trait.BitXor.html\" title=\"trait core::ops::BitXor\">BitXor</a>&lt;&amp;\x27a <a class=\"struct\" href=\"ndarray/struct.ArrayBase.html\" title=\"struct ndarray::ArrayBase\">ArrayBase</a>&lt;S, D&gt;&gt; for <a class=\"primitive\" href=\"https://doc.rust-lang.org/nightly/std/primitive.u8.html\">u8</a> <span class=\"where fmt-newline\">where<br>&nbsp;&nbsp;&nbsp;&nbsp;S: <a class=\"trait\" href=\"ndarray/trait.Data.html\" title=\"trait ndarray::Data\">Data</a>&lt;Elem = <a class=\"primitive\" href=\"https://doc.rust-lang.org/nightly/std/primitive.u8.html\">u8</a>&gt;,<br>&nbsp;&nbsp;&nbsp;&nbsp;D: <a class=\"trait\" href=\"ndarray/trait.Dimension.html\" title=\"trait ndarray::Dimension\">Dimension</a>,&nbsp;</span>",
    "impl&lt;S, D&gt; <a class=\"trait\" href=\"https://doc.rust-lang.org/nightly/core/ops/trait.BitXor.html\" title=\"trait core::ops::BitXor\">BitXor</a>&lt;<a class=\"struct\" href=\"ndarray/struct.ArrayBase.html\" title=\"struct ndarray::ArrayBase\">ArrayBase</a>&lt;S, D&gt;&gt; for <a class=\"primitive\" href=\"https://doc.rust-lang.org/nightly/std/primitive.i16.html\">i16</a> <span class=\"where fmt-newline\">where<br>&nbsp;&nbsp;&nbsp;&nbsp;S: <a class=\"trait\" href=\"ndarray/trait.DataOwned.html\" title=\"trait ndarray::DataOwned\">DataOwned</a>&lt;Elem = <a class=\"primitive\" href=\"https://doc.rust-lang.org/nightly/std/primitive.i16.html\">i16</a>&gt; + <a class=\"trait\" href=\"ndarray/trait.DataMut.html\" title=\"trait ndarray::DataMut\">DataMut</a>,<br>&nbsp;&nbsp;&nbsp;&nbsp;D: <a class=\"trait\" href=\"ndarray/trait.Dimension.html\" title=\"trait ndarray::Dimension\">Dimension</a>,&nbsp;</span>",
    "impl&lt;\x27a, S, D&gt; <a class=\"trait\" href=\"https://doc.rust-lang.org/nightly/core/ops/trait.BitXor.html\" title=\"trait core::ops::BitXor\">BitXor</a>&lt;&amp;\x27a <a class=\"struct\" href=\"ndarray/struct.ArrayBase.html\" title=\"struct ndarray::ArrayBase\">ArrayBase</a>&lt;S, D&gt;&gt; for <a class=\"primitive\" href=\"https://doc.rust-lang.org/nightly/std/primitive.i16.html\">i16</a> <span class=\"where fmt-newline\">where<br>&nbsp;&nbsp;&nbsp;&nbsp;S: <a class=\"trait\" href=\"ndarray/trait.Data.html\" title=\"trait ndarray::Data\">Data</a>&lt;Elem = <a class=\"primitive\" href=\"https://doc.rust-lang.org/nightly/std/primitive.i16.html\">i16</a>&gt;,<br>&nbsp;&nbsp;&nbsp;&nbsp;D: <a class=\"trait\" href=\"ndarray/trait.Dimension.html\" title=\"trait ndarray::Dimension\">Dimension</a>,&nbsp;</span>",
    "impl&lt;S, D&gt; <a class=\"trait\" href=\"https://doc.rust-lang.org/nightly/core/ops/trait.BitXor.html\" title=\"trait core::ops::BitXor\">BitXor</a>&lt;<a class=\"struct\" href=\"ndarray/struct.ArrayBase.html\" title=\"struct ndarray::ArrayBase\">ArrayBase</a>&lt;S, D&gt;&gt; for <a class=\"primitive\" href=\"https://doc.rust-lang.org/nightly/std/primitive.u16.html\">u16</a> <span class=\"where fmt-newline\">where<br>&nbsp;&nbsp;&nbsp;&nbsp;S: <a class=\"trait\" href=\"ndarray/trait.DataOwned.html\" title=\"trait ndarray::DataOwned\">DataOwned</a>&lt;Elem = <a class=\"primitive\" href=\"https://doc.rust-lang.org/nightly/std/primitive.u16.html\">u16</a>&gt; + <a class=\"trait\" href=\"ndarray/trait.DataMut.html\" title=\"trait ndarray::DataMut\">DataMut</a>,<br>&nbsp;&nbsp;&nbsp;&nbsp;D: <a class=\"trait\" href=\"ndarray/trait.Dimension.html\" title=\"trait ndarray::Dimension\">Dimension</a>,&nbsp;</span>",
    "impl&lt;\x27a, S, D&gt; <a class=\"trait\" href=\"https://doc.rust-lang.org/nightly/core/ops/trait.BitXor.html\" title=\"trait core::ops::BitXor\">BitXor</a>&lt;&amp;\x27a <a class=\"struct\" href=\"ndarray/struct.ArrayBase.html\" title=\"struct ndarray::ArrayBase\">ArrayBase</a>&lt;S, D&gt;&gt; for <a class=\"primitive\" href=\"https://doc.rust-lang.org/nightly/std/primitive.u16.html\">u16</a> <span class=\"where fmt-newline\">where<br>&nbsp;&nbsp;&nbsp;&nbsp;S: <a class=\"trait\" href=\"ndarray/trait.Data.html\" title=\"trait ndarray::Data\">Data</a>&lt;Elem = <a class=\"primitive\" href=\"https://doc.rust-lang.org/nightly/std/primitive.u16.html\">u16</a>&gt;,<br>&nbsp;&nbsp;&nbsp;&nbsp;D: <a class=\"trait\" href=\"ndarray/trait.Dimension.html\" title=\"trait ndarray::Dimension\">Dimension</a>,&nbsp;</span>",
    "impl&lt;S, D&gt; <a class=\"trait\" href=\"https://doc.rust-lang.org/nightly/core/ops/trait.BitXor.html\" title=\"trait core::ops::BitXor\">BitXor</a>&lt;<a class=\"struct\" href=\"ndarray/struct.ArrayBase.html\" title=\"struct ndarray::ArrayBase\">ArrayBase</a>&lt;S, D&gt;&gt; for <a class=\"primitive\" href=\"https://doc.rust-lang.org/nightly/std/primitive.i32.html\">i32</a> <span class=\"where fmt-newline\">where<br>&nbsp;&nbsp;&nbsp;&nbsp;S: <a class=\"trait\" href=\"ndarray/trait.DataOwned.html\" title=\"trait ndarray::DataOwned\">DataOwned</a>&lt;Elem = <a class=\"primitive\" href=\"https://doc.rust-lang.org/nightly/std/primitive.i32.html\">i32</a>&gt; + <a class=\"trait\" href=\"ndarray/trait.DataMut.html\" title=\"trait ndarray::DataMut\">DataMut</a>,<br>&nbsp;&nbsp;&nbsp;&nbsp;D: <a class=\"trait\" href=\"ndarray/trait.Dimension.html\" title=\"trait ndarray::Dimension\">Dimension</a>,&nbsp;</span>",
    "impl&lt;\x27a, S, D&gt; <a class=\"trait\" href=\"https://doc.rust-lang.org/nightly/core/ops/trait.BitXor.html\" title=\"trait core::ops::BitXor\">BitXor</a>&lt;&amp;\x27a <a class=\"struct\" href=\"ndarray/struct.ArrayBase.html\" title=\"struct ndarray::ArrayBase\">ArrayBase</a>&lt;S, D&gt;&gt; for <a class=\"primitive\" href=\"https://doc.rust-lang.org/nightly/std/primitive.i32.html\">i32</a> <span class=\"where fmt-newline\">where<br>&nbsp;&nbsp;&nbsp;&nbsp;S: <a class=\"trait\" href=\"ndarray/trait.Data.html\" title=\"trait ndarray::Data\">Data</a>&lt;Elem = <a class=\"primitive\" href=\"https://doc.rust-lang.org/nightly/std/primitive.i32.html\">i32</a>&gt;,<br>&nbsp;&nbsp;&nbsp;&nbsp;D: <a class=\"trait\" href=\"ndarray/trait.Dimension.html\" title=\"trait ndarray::Dimension\">Dimension</a>,&nbsp;</span>",
    "impl&lt;S, D&gt; <a class=\"trait\" href=\"https://doc.rust-lang.org/nightly/core/ops/trait.BitXor.html\" title=\"trait core::ops::BitXor\">BitXor</a>&lt;<a class=\"struct\" href=\"ndarray/struct.ArrayBase.html\" title=\"struct ndarray::ArrayBase\">ArrayBase</a>&lt;S, D&gt;&gt; for <a class=\"primitive\" href=\"https://doc.rust-lang.org/nightly/std/primitive.u32.html\">u32</a> <span class=\"where fmt-newline\">where<br>&nbsp;&nbsp;&nbsp;&nbsp;S: <a class=\"trait\" href=\"ndarray/trait.DataOwned.html\" title=\"trait ndarray::DataOwned\">DataOwned</a>&lt;Elem = <a class=\"primitive\" href=\"https://doc.rust-lang.org/nightly/std/primitive.u32.html\">u32</a>&gt; + <a class=\"trait\" href=\"ndarray/trait.DataMut.html\" title=\"trait ndarray::DataMut\">DataMut</a>,<br>&nbsp;&nbsp;&nbsp;&nbsp;D: <a class=\"trait\" href=\"ndarray/trait.Dimension.html\" title=\"trait ndarray::Dimension\">Dimension</a>,&nbsp;</span>",
    "impl&lt;\x27a, S, D&gt; <a class=\"trait\" href=\"https://doc.rust-lang.org/nightly/core/ops/trait.BitXor.html\" title=\"trait core::ops::BitXor\">BitXor</a>&lt;&amp;\x27a <a class=\"struct\" href=\"ndarray/struct.ArrayBase.html\" title=\"struct ndarray::ArrayBase\">ArrayBase</a>&lt;S, D&gt;&gt; for <a class=\"primitive\" href=\"https://doc.rust-lang.org/nightly/std/primitive.u32.html\">u32</a> <span class=\"where fmt-newline\">where<br>&nbsp;&nbsp;&nbsp;&nbsp;S: <a class=\"trait\" href=\"ndarray/trait.Data.html\" title=\"trait ndarray::Data\">Data</a>&lt;Elem = <a class=\"primitive\" href=\"https://doc.rust-lang.org/nightly/std/primitive.u32.html\">u32</a>&gt;,<br>&nbsp;&nbsp;&nbsp;&nbsp;D: <a class=\"trait\" href=\"ndarray/trait.Dimension.html\" title=\"trait ndarray::Dimension\">Dimension</a>,&nbsp;</span>",
    "impl&lt;S, D&gt; <a class=\"trait\" href=\"https://doc.rust-lang.org/nightly/core/ops/trait.BitXor.html\" title=\"trait core::ops::BitXor\">BitXor</a>&lt;<a class=\"struct\" href=\"ndarray/struct.ArrayBase.html\" title=\"struct ndarray::ArrayBase\">ArrayBase</a>&lt;S, D&gt;&gt; for <a class=\"primitive\" href=\"https://doc.rust-lang.org/nightly/std/primitive.i64.html\">i64</a> <span class=\"where fmt-newline\">where<br>&nbsp;&nbsp;&nbsp;&nbsp;S: <a class=\"trait\" href=\"ndarray/trait.DataOwned.html\" title=\"trait ndarray::DataOwned\">DataOwned</a>&lt;Elem = <a class=\"primitive\" href=\"https://doc.rust-lang.org/nightly/std/primitive.i64.html\">i64</a>&gt; + <a class=\"trait\" href=\"ndarray/trait.DataMut.html\" title=\"trait ndarray::DataMut\">DataMut</a>,<br>&nbsp;&nbsp;&nbsp;&nbsp;D: <a class=\"trait\" href=\"ndarray/trait.Dimension.html\" title=\"trait ndarray::Dimension\">Dimension</a>,&nbsp;</span>",
    "impl&lt;\x27a, S, D&gt; <a class=\"trait\" href=\"https://doc.rust-lang.org/nightly/core/ops/trait.BitXor.html\" title=\"trait core::ops::BitXor\">BitXor</a>&lt;&amp;\x27a <a class=\"struct\" href=\"ndarray/struct.ArrayBase.html\" title=\"struct ndarray::ArrayBase\">ArrayBase</a>&lt;S, D&gt;&gt; for <a class=\"primitive\" href=\"https://doc.rust-lang.org/nightly/std/primitive.i64.html\">i64</a> <span class=\"where fmt-newline\">where<br>&nbsp;&nbsp;&nbsp;&nbsp;S: <a class=\"trait\" href=\"ndarray/trait.Data.html\" title=\"trait ndarray::Data\">Data</a>&lt;Elem = <a class=\"primitive\" href=\"https://doc.rust-lang.org/nightly/std/primitive.i64.html\">i64</a>&gt;,<br>&nbsp;&nbsp;&nbsp;&nbsp;D: <a class=\"trait\" href=\"ndarray/trait.Dimension.html\" title=\"trait ndarray::Dimension\">Dimension</a>,&nbsp;</span>",
    "impl&lt;S, D&gt; <a class=\"trait\" href=\"https://doc.rust-lang.org/nightly/core/ops/trait.BitXor.html\" title=\"trait core::ops::BitXor\">BitXor</a>&lt;<a class=\"struct\" href=\"ndarray/struct.ArrayBase.html\" title=\"struct ndarray::ArrayBase\">ArrayBase</a>&lt;S, D&gt;&gt; for <a class=\"primitive\" href=\"https://doc.rust-lang.org/nightly/std/primitive.u64.html\">u64</a> <span class=\"where fmt-newline\">where<br>&nbsp;&nbsp;&nbsp;&nbsp;S: <a class=\"trait\" href=\"ndarray/trait.DataOwned.html\" title=\"trait ndarray::DataOwned\">DataOwned</a>&lt;Elem = <a class=\"primitive\" href=\"https://doc.rust-lang.org/nightly/std/primitive.u64.html\">u64</a>&gt; + <a class=\"trait\" href=\"ndarray/trait.DataMut.html\" title=\"trait ndarray::DataMut\">DataMut</a>,<br>&nbsp;&nbsp;&nbsp;&nbsp;D: <a class=\"trait\" href=\"ndarray/trait.Dimension.html\" title=\"trait ndarray::Dimension\">Dimension</a>,&nbsp;</span>",
    "impl&lt;\x27a, S, D&gt; <a class=\"trait\" href=\"https://doc.rust-lang.org/nightly/core/ops/trait.BitXor.html\" title=\"trait core::ops::BitXor\">BitXor</a>&lt;&amp;\x27a <a class=\"struct\" href=\"ndarray/struct.ArrayBase.html\" title=\"struct ndarray::ArrayBase\">ArrayBase</a>&lt;S, D&gt;&gt; for <a class=\"primitive\" href=\"https://doc.rust-lang.org/nightly/std/primitive.u64.html\">u64</a> <span class=\"where fmt-newline\">where<br>&nbsp;&nbsp;&nbsp;&nbsp;S: <a class=\"trait\" href=\"ndarray/trait.Data.html\" title=\"trait ndarray::Data\">Data</a>&lt;Elem = <a class=\"primitive\" href=\"https://doc.rust-lang.org/nightly/std/primitive.u64.html\">u64</a>&gt;,<br>&nbsp;&nbsp;&nbsp;&nbsp;D: <a class=\"trait\" href=\"ndarray/trait.Dimension.html\" title=\"trait ndarray::Dimension\">Dimension</a>,&nbsp;</span>",
    "impl&lt;S, D&gt; <a class=\"trait\" href=\"https://doc.rust-lang.org/nightly/core/ops/trait.BitXor.html\" title=\"trait core::ops::BitXor\">BitXor</a>&lt;<a class=\"struct\" href=\"ndarray/struct.ArrayBase.html\" title=\"struct ndarray::ArrayBase\">ArrayBase</a>&lt;S, D&gt;&gt; for <a class=\"primitive\" href=\"https://doc.rust-lang.org/nightly/std/primitive.bool.html\">bool</a> <span class=\"where fmt-newline\">where<br>&nbsp;&nbsp;&nbsp;&nbsp;S: <a class=\"trait\" href=\"ndarray/trait.DataOwned.html\" title=\"trait ndarray::DataOwned\">DataOwned</a>&lt;Elem = <a class=\"primitive\" href=\"https://doc.rust-lang.org/nightly/std/primitive.bool.html\">bool</a>&gt; + <a class=\"trait\" href=\"ndarray/trait.DataMut.html\" title=\"trait ndarray::DataMut\">DataMut</a>,<br>&nbsp;&nbsp;&nbsp;&nbsp;D: <a class=\"trait\" href=\"ndarray/trait.Dimension.html\" title=\"trait ndarray::Dimension\">Dimension</a>,&nbsp;</span>",
    "impl&lt;\x27a, S, D&gt; <a class=\"trait\" href=\"https://doc.rust-lang.org/nightly/core/ops/trait.BitXor.html\" title=\"trait core::ops::BitXor\">BitXor</a>&lt;&amp;\x27a <a class=\"struct\" href=\"ndarray/struct.ArrayBase.html\" title=\"struct ndarray::ArrayBase\">ArrayBase</a>&lt;S, D&gt;&gt; for <a class=\"primitive\" href=\"https://doc.rust-lang.org/nightly/std/primitive.bool.html\">bool</a> <span class=\"where fmt-newline\">where<br>&nbsp;&nbsp;&nbsp;&nbsp;S: <a class=\"trait\" href=\"ndarray/trait.Data.html\" title=\"trait ndarray::Data\">Data</a>&lt;Elem = <a class=\"primitive\" href=\"https://doc.rust-lang.org/nightly/std/primitive.bool.html\">bool</a>&gt;,<br>&nbsp;&nbsp;&nbsp;&nbsp;D: <a class=\"trait\" href=\"ndarray/trait.Dimension.html\" title=\"trait ndarray::Dimension\">Dimension</a>,&nbsp;</span>"
  ])
]

/-- The implementor table of src/implementors/std/error/trait.Error.js as it
stands when the dispatch runs. -/
def trait_Error_implementors : ImplTable := buildTable trait_Error_assignments

/-- The implementor table of src/implementors/core/ops/trait.BitXor.js as it
stands when the dispatch runs. -/
def trait_BitXor_implementors : ImplTable := buildTable trait_BitXor_assignments

/-- One page load of src/implementors/std/error/trait.Error.js: build the
table, then dispatch. -/
def trait_Error_run (w : Window) : RunResult :=
  register_dispatch w trait_Error_implementors

/-- One page load of src/implementors/core/ops/trait.BitXor.js: build the
table, then dispatch. -/
def trait_BitXor_run (w : Window) : RunResult :=
  register_dispatch w trait_BitXor_implementors

/-- Case analysis of one run of the dispatch: the registration global is
falsy and the table is stored; or it is a function and a single call is
made; or it is truthy but not a function and the call throws. -/
theorem register_dispatch_trichotomy (w : Window) (T : ImplTable) :
    (truthy w.register_implementors = false ∧
       register_dispatch w T =
         ⟨⟨w.register_implementors, JSValue.table T⟩, [Effect.store T], none⟩) ∨
    (∃ f, w.register_implementors = JSValue.fn f ∧
       register_dispatch w T = ⟨w, [Effect.call f T], none⟩) ∨
    (truthy w.register_implementors = true ∧
       (∀ f, w.register_implementors ≠ JSValue.fn f) ∧
       register_dispatch w T = ⟨w, [], some JSError.typeError⟩) := by
  obtain ⟨r, p⟩ := w
  by_cases ht : truthy r = true
  · cases r with
    | fn f => exact Or.inr (Or.inl ⟨f, rfl, rfl⟩)
    | undef => simp [truthy] at ht
    | null => simp [truthy] at ht
    | boolean b =>
        refine Or.inr (Or.inr ⟨ht, fun f h => JSValue.noConfusion h, ?_⟩)
        simp only [register_dispatch, jsCall, ht, if_true]
    | num n =>
        refine Or.inr (Or.inr ⟨ht, fun f h => JSValue.noConfusion h, ?_⟩)
        simp only [register_dispatch, jsCall, ht, if_true]
    | str s =>
        refine Or.inr (Or.inr ⟨ht, fun f h => JSValue.noConfusion h, ?_⟩)
        simp only [register_dispatch, jsCall, ht, if_true]
    | table t =>
        refine Or.inr (Or.inr ⟨ht, fun f h => JSValue.noConfusion h, ?_⟩)
        simp only [register_dispatch, jsCall, ht, if_true]
  · rw [Bool.not_eq_true] at ht
    exact Or.inl ⟨ht, by simp only [register_dispatch, ht, Bool.false_eq_true, if_false]⟩

/-- Whatever branch is taken, every effect of a run of the dispatch carries
exactly the table the dispatch was given. -/
theorem register_dispatch_payload (w : Window) (T : ImplTable) :
    ∀ e ∈ (register_dispatch w T).effects, payloadOf e = T := by
  rcases register_dispatch_trichotomy w T with ⟨_, he⟩ | ⟨f, _, he⟩ | ⟨_, _, he⟩ <;>
    rw [he] <;> intro e hm <;> simp only [List.mem_singleton, List.not_mem_nil] at hm
  · rw [hm]; rfl
  · rw [hm]; rfl

/-- In a table with pairwise-distinct keys, every entry is found by lookup
with exactly its own value. -/
theorem tableLookup_mem (t : ImplTable) (h : (t.map Prod.fst).Nodup) :
    ∀ kv ∈ t, tableLookup t kv.1 = some kv.2 := by
  induction t with
  | nil => intro kv hkv; exact absurd hkv (List.not_mem_nil kv)
  | cons hd tl ih =>
      intro kv hkv
      simp only [List.map_cons, List.nodup_cons, List.mem_map] at h
      rcases List.mem_cons.mp hkv with hh | htl
      · rw [hh]; simp [tableLookup]
      · have hne : hd.1 ≠ kv.1 := fun he => h.1 ⟨kv, htl, he.symm⟩
        simpa [tableLookup, hne] using ih h.2 kv htl

/-- C1: for every implementor table, if the global registration function is
present (the global holds a function) when the hand-off runs, that
function is invoked exactly once with the table as its sole argument, and
the pending slot is left unchanged by the hand-off. -/
theorem C1_present_invoked_once_pending_untouched
    (w : Window) (T : ImplTable) (f : Nat)
    (h : w.register_implementors = JSValue.fn f) :
    (register_dispatch w T).effects = [Effect.call f T] ∧
    (register_dispatch w T).window.pending_implementors = w.pending_implementors := by
  obtain ⟨r, p⟩ := w
  cases h
  exact ⟨rfl, rfl⟩

/-- Witness for C1 at a concrete window and table. -/
theorem C1_witness :
    (register_dispatch ⟨JSValue.fn 0, JSValue.undef⟩ [("log", [])]).effects
        = [Effect.call 0 [("log", [])]] ∧
    (register_dispatch ⟨JSValue.fn 0, JSValue.undef⟩ [("log", [])]).window.pending_implementors
        = JSValue.undef :=
  C1_present_invoked_once_pending_untouched ⟨JSValue.fn 0, JSValue.undef⟩ [("log", [])] 0 rfl

/-- C2: for every implementor table, if the registration global is absent
(falsy) when the hand-off runs, the pending slot afterwards equals the
table exactly and no function is invoked by the hand-off. -/
theorem C2_absent_stores_no_call (w : Window) (T : ImplTable)
    (h : truthy w.register_implementors = false) :
    (register_dispatch w T).window.pending_implementors = JSValue.table T ∧
    (register_dispatch w T).effects = [Effect.store T] ∧
    ∀ f t, Effect.call f t ∉ (register_dispatch w T).effects := by
  rcases register_dispatch_trichotomy w T with ⟨_, he⟩ | ⟨f, hf, _⟩ | ⟨ht, _, _⟩
  · rw [he]
    refine ⟨rfl, rfl, ?_⟩
    intro f t hm
    simp only [List.mem_singleton] at hm
    exact Effect.noConfusion hm
  · rw [hf] at h
    exact Bool.noConfusion h
  · rw [h] at ht
    exact Bool.noConfusion ht

/-- Witness for C2 at a concrete window and table. -/
theorem C2_witness :
    (register_dispatch ⟨JSValue.undef, JSValue.undef⟩ [("libc", [])]).window.pending_implementors
        = JSValue.table [("libc", [])] ∧
    (register_dispatch ⟨JSValue.undef, JSValue.undef⟩ [("libc", [])]).effects
        = [Effect.store [("libc", [])]] :=
  ⟨(C2_absent_stores_no_call ⟨JSValue.undef, JSValue.undef⟩ [("libc", [])] rfl).1,
   (C2_absent_stores_no_call ⟨JSValue.undef, JSValue.undef⟩ [("libc", [])] rfl).2.1⟩

/-- C4: two hand-offs with tables T1 then T2, the registration global falsy
throughout and the slot not drained in between, leave the pending slot
equal to T2 exactly: the second write replaces the first entirely, with no
merging or accumulation. -/
theorem C4_second_write_overwrites (w : Window) (T1 T2 : ImplTable)
    (h : truthy w.register_implementors = false) :
    (register_dispatch (register_dispatch w T1).window T2).window.pending_implementors
        = JSValue.table T2 := by
  rcases register_dispatch_trichotomy w T1 with ⟨_, he⟩ | ⟨f, hf, _⟩ | ⟨ht, _, _⟩
  · rw [he]
    rcases register_dispatch_trichotomy ⟨w.register_implementors, JSValue.table T1⟩ T2 with
      ⟨_, he2⟩ | ⟨f, hf2, _⟩ | ⟨ht2, _, _⟩
    · rw [he2]
    · rw [show (Window.mk w.register_implementors (JSValue.table T1)).register_implementors
            = w.register_implementors from rfl] at hf2
      rw [hf2] at h
      exact Bool.noConfusion h
    · rw [show (Window.mk w.register_implementors (JSValue.table T1)).register_implementors
            = w.register_implementors from rfl, h] at ht2
      exact Bool.noConfusion ht2
  · rw [hf] at h
    exact Bool.noConfusion h
  · rw [h] at ht
    exact Bool.noConfusion ht

/-- Witness for C4 at a concrete window and a concrete pair of tables. -/
theorem C4_witness :
    (register_dispatch (register_dispatch ⟨JSValue.undef, JSValue.undef⟩
        [("itertools", ["a"])]).window [("libc", [])]).window.pending_implementors
      = JSValue.table [("libc", [])] :=
  C4_second_write_overwrites ⟨JSValue.undef, JSValue.undef⟩ [("itertools", ["a"])] [("libc", [])] rfl

/-- C10: the hand-off is deterministic — two runs starting from equal
values of the two page globals produce identical results (same branch,
same final state, same effects). -/
theorem C10_deterministic (w1 w2 : Window) (T : ImplTable)
    (h1 : w1.register_implementors = w2.register_implementors)
    (h2 : w1.pending_implementors = w2.pending_implementors) :
    register_dispatch w1 T = register_dispatch w2 T := by
  obtain ⟨r1, p1⟩ := w1
  obtain ⟨r2, p2⟩ := w2
  cases h1
  cases h2
  rfl

/-- Witness for C10 at a concrete pair of equal windows. -/
theorem C10_witness :
    register_dispatch ⟨JSValue.fn 1, JSValue.undef⟩ [("log", [])] =
      register_dispatch ⟨JSValue.fn 1, JSValue.undef⟩ [("log", [])] :=
  C10_deterministic ⟨JSValue.fn 1, JSValue.undef⟩ ⟨JSValue.fn 1, JSValue.undef⟩
    [("log", [])] rfl rfl

/-- C3 counterexample: with the registration global holding the truthy
non-function value 1, a run of the hand-off throws before any effect
occurs, so the table is neither delivered nor stored — it is not the case
that exactly one of the two effects occurs on every run. -/
theorem C3_counterexample :
    ¬ (∀ (w : Window) (T : ImplTable),
        (deliveredTable (register_dispatch w T) = true ∧
           storedTable (register_dispatch w T) = false) ∨
        (deliveredTable (register_dispatch w T) = false ∧
           storedTable (register_dispatch w T) = true)) := by
  intro h
  rcases h ⟨JSValue.num 1, JSValue.undef⟩ [] with ⟨hd, _⟩ | ⟨_, hs⟩
  · exact Bool.noConfusion hd
  · exact Bool.noConfusion hs

/-- C3 (amended): on any single run of the hand-off at most one of the two
effects occurs — the table is never both delivered and stored — and
exactly one occurs whenever the registration global is falsy or holds a
function. -/
theorem C3_amended_at_most_one (w : Window) (T : ImplTable) :
    ¬ (deliveredTable (register_dispatch w T) = true ∧
       storedTable (register_dispatch w T) = true) ∧
    ((truthy w.register_implementors = false ∨
        (∃ f, w.register_implementors = JSValue.fn f)) →
      deliveredTable (register_dispatch w T) ≠ storedTable (register_dispatch w T)) := by
  rcases register_dispatch_trichotomy w T with ⟨ht, he⟩ | ⟨f, hf, he⟩ | ⟨ht, hnf, he⟩ <;> rw [he]
  · exact ⟨fun hc => Bool.noConfusion hc.1, fun _ hc => Bool.noConfusion hc⟩
  · exact ⟨fun hc => Bool.noConfusion hc.2, fun _ hc => Bool.noConfusion hc⟩
  · refine ⟨fun hc => Bool.noConfusion hc.1, fun hp => ?_⟩
    rcases hp with hfalse | ⟨f, hfn⟩
    · rw [ht] at hfalse
      exact Bool.noConfusion hfalse
    · exact absurd hfn (hnf f)

/-- Witness for the amended C3 at a concrete window and table. -/
theorem C3_witness :
    deliveredTable (register_dispatch ⟨JSValue.undef, JSValue.undef⟩ [("time", [])]) ≠
      storedTable (register_dispatch ⟨JSValue.undef, JSValue.undef⟩ [("time", [])]) :=
  (C3_amended_at_most_one ⟨JSValue.undef, JSValue.undef⟩ [("time", [])]).2 (Or.inl rfl)

/-- C6 counterexample: starting from a state whose registration global is
the truthy non-function value 1, the hand-off throws a TypeError, so it is
not errorless from every initial state of the two page globals. -/
theorem C6_counterexample :
    ¬ (∀ (w : Window) (T : ImplTable), (register_dispatch w T).thrown = none) := by
  intro h
  exact Option.noConfusion (h ⟨JSValue.num 1, JSValue.undef⟩ [])

/-- The error outcome of the dispatch never depends on the table: it is
decided by the registration global alone. -/
theorem register_dispatch_thrown_eq (w : Window) (T1 T2 : ImplTable) :
    (register_dispatch w T1).thrown = (register_dispatch w T2).thrown := by
  obtain ⟨r, p⟩ := w
  by_cases ht : truthy r = true
  · simp only [register_dispatch, ht, if_true]
    cases r <;> rfl
  · rw [Bool.not_eq_true] at ht
    simp only [register_dispatch, ht, Bool.false_eq_true, if_false]

/-- C6 (amended): the hand-off signals no error from every initial state
in which the registration global is falsy or holds a function, and it
performs no validation of the table's contents — whether an error is
signalled never depends on the table. The error branch is reachable only
when the registration global holds a truthy non-function value. -/
theorem C6_amended_no_failure (w : Window) (T : ImplTable)
    (h : truthy w.register_implementors = false ∨
         ∃ f, w.register_implementors = JSValue.fn f) :
    (register_dispatch w T).thrown = none ∧
    ∀ T2 : ImplTable, (register_dispatch w T2).thrown = (register_dispatch w T).thrown := by
  refine ⟨?_, fun T2 => register_dispatch_thrown_eq w T2 T⟩
  rcases register_dispatch_trichotomy w T with ⟨_, he⟩ | ⟨f, _, he⟩ | ⟨ht, hnf, _⟩
  · rw [he]
  · rw [he]
  · rcases h with hfalse | ⟨f, hfn⟩
    · rw [ht] at hfalse
      exact Bool.noConfusion hfalse
    · exact absurd hfn (hnf f)

/-- Witness for the amended C6 at a concrete window and table. -/
theorem C6_witness :
    (register_dispatch ⟨JSValue.null, JSValue.undef⟩ [("slog", [])]).thrown = none :=
  (C6_amended_no_failure ⟨JSValue.null, JSValue.undef⟩ [("slog", [])] (Or.inl rfl)).1

/-- C9: the hand-off never writes the registration global — in every run
it is only read — and the only page global the hand-off writes is the
pending slot, and only on the absent branch: when the pending slot
changed, the branch taken was the falsy one and the new value is the
hand-off's table. -/
theorem C9_only_pending_written (w : Window) (T : ImplTable) :
    (register_dispatch w T).window.register_implementors = w.register_implementors ∧
    (truthy w.register_implementors = true → (register_dispatch w T).window = w) ∧
    ((register_dispatch w T).window.pending_implementors ≠ w.pending_implementors →
       truthy w.register_implementors = false ∧
       (register_dispatch w T).window.pending_implementors = JSValue.table T) := by
  rcases register_dispatch_trichotomy w T with ⟨ht, he⟩ | ⟨f, hf, he⟩ | ⟨ht, hnf, he⟩ <;> rw [he]
  · refine ⟨rfl, fun hc => ?_, fun _ => ⟨ht, rfl⟩⟩
    rw [ht] at hc
    exact Bool.noConfusion hc
  · exact ⟨rfl, fun _ => rfl, fun hc => absurd rfl hc⟩
  · exact ⟨rfl, fun _ => rfl, fun hc => absurd rfl hc⟩

/-- Witness for C9 at a concrete window and table. -/
theorem C9_witness :
    (register_dispatch ⟨JSValue.fn 2, JSValue.null⟩ [("time", [])]).window
      = ⟨JSValue.fn 2, JSValue.null⟩ :=
  (C9_only_pending_written ⟨JSValue.fn 2, JSValue.null⟩ [("time", [])]).2.1 rfl

/-- C5: for both source files, the value that reaches the consumer —
whether passed to the registration function or stored in the pending
slot — is exactly the constructed table: it equals the assignment sequence
itself, so the key set, the construction order of the keys, and each key's
sequence of description strings are preserved unchanged, with the empty
sequences kept. -/
theorem C5_table_preserved :
    (∀ (w : Window), ∀ e ∈ (trait_Error_run w).effects,
        payloadOf e = trait_Error_implementors) ∧
    (∀ (w : Window), ∀ e ∈ (trait_BitXor_run w).effects,
        payloadOf e = trait_BitXor_implementors) ∧
    trait_Error_implementors = trait_Error_assignments ∧
    trait_BitXor_implementors = trait_BitXor_assignments ∧
    trait_Error_implementors.map Prod.fst
        = ["itertools", "libc", "log", "ndarray", "slog", "time"] ∧
    trait_BitXor_implementors.map Prod.fst = ["itertools", "libc", "ndarray"] ∧
    tableLookup trait_Error_implementors "itertools" = some [] ∧
    tableLookup trait_Error_implementors "libc" = some [] :=
  ⟨fun w => register_dispatch_payload w trait_Error_implementors,
   fun w => register_dispatch_payload w trait_BitXor_implementors,
   rfl, rfl, rfl, rfl, rfl, rfl⟩

/-- Witness for C5: the value stored by a concrete run of the Error file
is the full constructed table. -/
theorem C5_witness :
    payloadOf (Effect.store trait_Error_implementors) = trait_Error_implementors :=
  C5_table_preserved.1 ⟨JSValue.undef, JSValue.undef⟩
    (Effect.store trait_Error_implementors) (List.Mem.head _)

/-- C7: the table of each file is fully constructed before the dispatch
runs: every key assigned in the source is present, with its complete
assigned sequence of description strings, in any value the run delivers or
stores — the consumer never sees a partial table. -/
theorem C7_complete_table_dispatched :
    (∀ (w : Window), ∀ e ∈ (trait_Error_run w).effects,
        ∀ kv ∈ trait_Error_assignments,
          tableLookup (payloadOf e) kv.1 = some kv.2) ∧
    (∀ (w : Window), ∀ e ∈ (trait_BitXor_run w).effects,
        ∀ kv ∈ trait_BitXor_assignments,
          tableLookup (payloadOf e) kv.1 = some kv.2) := by
  constructor
  · intro w e he kv hkv
    rw [register_dispatch_payload w trait_Error_implementors e he,
      show trait_Error_implementors = trait_Error_assignments from rfl]
    refine tableLookup_mem trait_Error_assignments ?_ kv hkv
    decide
  · intro w e he kv hkv
    rw [register_dispatch_payload w trait_BitXor_implementors e he,
      show trait_BitXor_implementors = trait_BitXor_assignments from rfl]
    refine tableLookup_mem trait_BitXor_assignments ?_ kv hkv
    decide

/-- Witness for C7: a concrete run of the Error file stores a table in
which the first assigned key is present with its assigned (empty) value. -/
theorem C7_witness :
    tableLookup (payloadOf (Effect.store trait_Error_implementors)) "itertools" = some [] :=
  C7_complete_table_dispatched.1 ⟨JSValue.undef, JSValue.undef⟩
    (Effect.store trait_Error_implementors) (List.Mem.head _)
    ("itertools", []) (List.Mem.head _)

/-- C8: the dispatch decides presence by truthiness, not by callability:
the pending-slot branch is taken exactly when the registration global is
falsy — undefined, null, false, 0 or the empty string — and any truthy
value, callable or not, selects the invocation branch, whose outcome is
that of calling the global's value with the table. -/
theorem C8_truthiness_decides (w : Window) (T : ImplTable) :
    (storedTable (register_dispatch w T) = true ↔
        truthy w.register_implementors = false) ∧
    (truthy w.register_implementors = false ↔
        (w.register_implementors = JSValue.undef ∨
         w.register_implementors = JSValue.null ∨
         w.register_implementors = JSValue.boolean false ∨
         w.register_implementors = JSValue.num 0 ∨
         w.register_implementors = JSValue.str "")) ∧
    (truthy w.register_implementors = true →
        register_dispatch w T =
          ⟨w, (jsCall w.register_implementors T).1,
              (jsCall w.register_implementors T).2⟩) := by
  obtain ⟨r, p⟩ := w
  refine ⟨?_, ?_, fun ht => by simp only [register_dispatch, ht, if_true]⟩
  · cases r with
    | undef => exact ⟨fun _ => rfl, fun _ => rfl⟩
    | null => exact ⟨fun _ => rfl, fun _ => rfl⟩
    | fn f => exact ⟨fun hc => Bool.noConfusion hc, fun hc => Bool.noConfusion hc⟩
    | table t => exact ⟨fun hc => Bool.noConfusion hc, fun hc => Bool.noConfusion hc⟩
    | boolean b =>
        cases b with
        | false => exact ⟨fun _ => rfl, fun _ => rfl⟩
        | true => exact ⟨fun hc => Bool.noConfusion hc, fun hc => Bool.noConfusion hc⟩
    | num n =>
        by_cases hn : n = 0
        · subst hn
          exact ⟨fun _ => rfl, fun _ => rfl⟩
        · have ht : truthy (JSValue.num n) = true := by simp [truthy, hn]
          simp [register_dispatch, storedTable, jsCall, ht]
    | str s =>
        by_cases hs : s = ""
        · subst hs
          exact ⟨fun _ => rfl, fun _ => rfl⟩
        · have ht : truthy (JSValue.str s) = true := by simp [truthy, hs]
          simp [register_dispatch, storedTable, jsCall, ht]
  · cases r with
    | undef => simp [truthy]
    | null => simp [truthy]
    | fn f => simp [truthy]
    | table t => simp [truthy]
    | boolean b => cases b <;> simp [truthy]
    | num n => simp [truthy]
    | str s => simp [truthy]

/-- Witness for C8: a truthy non-callable registration global selects the
invocation branch at a concrete window and table. -/
theorem C8_witness :
    register_dispatch ⟨JSValue.str "x", JSValue.undef⟩ [("ndarray", [])] =
      ⟨⟨JSValue.str "x", JSValue.undef⟩,
       (jsCall (JSValue.str "x") [("ndarray", [])]).1,
       (jsCall (JSValue.str "x") [("ndarray", [])]).2⟩ :=
  (C8_truthiness_decides ⟨JSValue.str "x", JSValue.undef⟩ [("ndarray", [])]).2.2 rfl
